import Mathlib

/-
Verification development for the annotation/canvas engine of the
gesture_teach repository (presentation_control/drawing_utils.py and the
flush paths of presentation_control/main.py).

Modelling conventions:
* A pixel buffer is modelled as the list of deterministic paint calls
  (cv2.line / filled cv2.circle / outlined cv2.circle / cv2.rectangle)
  applied to it since it was last reset to the background colour.  Every
  such call is deterministic, so two buffers of equal dimensions that have
  received the same call list are byte-identical; conversely a buffer is
  "unchanged" exactly when its call list is unchanged.  numpy's fill(0)
  restores the zero-initialised background, so a cleared buffer is
  modelled by the empty call list.
* Machine integers and Python ints are modelled by Int.  The Python idiom
  int(a * b / c) (float divide then truncate toward zero) is modelled by
  Int.tdiv (a * b) c, exact whenever the float quotient is; int(x ** 0.5)
  for x >= 0 is modelled by the floor square root.
* Annotation dictionaries are modelled by a structure of optional fields
  (dict.get returning None is Option.none); a persisted entry that is not
  a dict at all is the DbRecord.malformed constructor.
* time.time() timestamps are supplied by the caller as an explicit `now`
  argument; no claim depends on their values.
-/

/-- Colour triple, drawing_utils.py uses BGR tuples of ints. -/
abbrev Color := Int × Int × Int

/-- One deterministic OpenCV paint call, as issued by drawing_utils.py. -/
inductive PaintOp where
  /-- cv2.line(buf, p, q, color, thickness) -/
  | line (p q : Int × Int) (color : Color) (thickness : Int)
  /-- cv2.circle(buf, center, radius, color, -1): filled disc -/
  | discFill (center : Int × Int) (radius : Int) (color : Color)
  /-- cv2.circle(buf, center, radius, color, thickness): outline -/
  | circleOutline (center : Int × Int) (radius : Int) (color : Color) (thickness : Int)
  /-- cv2.rectangle(buf, p, q, color, thickness): outline -/
  | rectOutline (p q : Int × Int) (color : Color) (thickness : Int)
deriving DecidableEq

/-- An annotation dict (drawing_utils.py builds these in draw /
draw_on_webcam / erase / reset_points / clear_canvas).  Absent keys are
none; `dict.get(k)` is the field value. -/
structure Ann where
  type : Option String := none
  coords : Option (Int × Int) := none
  prev_coords : Option (Int × Int) := none
  shape_start : Option (Int × Int) := none
  shape_end : Option (Int × Int) := none
  color : Option Color := none
  brush_size : Option Int := none
  target : Option String := none
  timestamp : Option Int := none
deriving DecidableEq

/-- One entry of the persisted sequence handed to load_annotations; the
code tolerates entries that are not dicts (isinstance check at line 412
and 426) which we model with the malformed constructor. -/
inductive DbRecord where
  | malformed : DbRecord
  | good : Ann → DbRecord
deriving DecidableEq

/-- State of drawing_utils.DrawingCanvas.  The four numpy buffers are
modelled as paint-call lists (empty list = background). -/
structure DrawingCanvas where
  slide_width : Int
  slide_height : Int
  webcam_width : Int
  webcam_height : Int
  canvas : List PaintOp
  webcam_canvas : List PaintOp
  preview_canvas : List PaintOp
  webcam_preview_canvas : List PaintOp
  slide_prev : Option (Int × Int)
  webcam_prev : Option (Int × Int)
  slide_shape_start : Option (Int × Int)
  webcam_shape_start : Option (Int × Int)
  current_color_index : Nat
  brush_size : Int
  current_annotations : List Ann
deriving DecidableEq

/-- DrawingCanvas.__init__ (drawing_utils.py lines 11-42). -/
def DrawingCanvas.init (sw sh ww wh : Int) : DrawingCanvas :=
  { slide_width := sw, slide_height := sh, webcam_width := ww, webcam_height := wh,
    canvas := [], webcam_canvas := [], preview_canvas := [], webcam_preview_canvas := [],
    slide_prev := none, webcam_prev := none,
    slide_shape_start := none, webcam_shape_start := none,
    current_color_index := 0, brush_size := 5, current_annotations := [] }

/-- self.colors (line 31). -/
def stdColors : List Color := [(0, 0, 255), (0, 255, 0), (255, 0, 0), (255, 255, 0)]

/-- self.blackboard_colors (line 32). -/
def blackboardColors : List Color :=
  [(255, 255, 255), (200, 200, 200), (150, 255, 255), (255, 150, 255)]

/-- _get_current_color (lines 44-50): colors[current_color_index % len(colors)].
The getD default is never reached since the index is taken mod the length. -/
def getCurrentColor (c : DrawingCanvas) (blackboard : Bool) : Color :=
  let cols := if blackboard then blackboardColors else stdColors
  cols.getD (c.current_color_index % cols.length) (0, 0, 255)

/-- The coordinate mapping used at lines 55-56, 105-106, 190-191, 196-197:
min(max(int(v_norm * dim / norm), 0), dim - 1).  Python int() truncates
toward zero, hence Int.tdiv. -/
def mapCoord (v_norm dim norm : Int) : Int :=
  min (max (Int.tdiv (v_norm * dim) norm) 0) (dim - 1)

/-- Modelled from the spec: the spec's CoordinateMapper formula
clamp(round(x_norm * target_width / norm_width), 0, target_width-1) with
round = round-to-nearest (half away from zero for the nonneg operands used
here): round(a/b) = floor((2a+b)/(2b)) for b > 0.  Present only to be
compared against mapCoord, which is translated from the code. -/
def roundDiv (a b : Int) : Int := Int.fdiv (2 * a + b) (2 * b)

/-- Modelled from the spec: the clamp-of-rounded mapping the spec and
claim C7 describe. -/
def mapCoordSpecRound (v_norm dim norm : Int) : Int :=
  min (max (roundDiv (v_norm * dim) norm) 0) (dim - 1)

/-- int(x ** 0.5) for x >= 0: floor square root. -/
def intSqrt (n : Int) : Int := Int.ofNat (Nat.sqrt n.toNat)

/-- draw_shape (lines 145-184).  The buffer to draw on is passed together
with its dimensions (h, w = canvas_to_draw_on.shape[:2]).  The None
guards at lines 147-152 are typed away (all call sites pass values). -/
def draw_shape (buf : List PaintOp) (s e : Int × Int) (mode : String)
    (col : Color) (thickness w h : Int) : List PaintOp :=
  let t := max 1 thickness
  if mode = "circle" then
    let radius := intSqrt ((e.1 - s.1) * (e.1 - s.1) + (e.2 - s.2) * (e.2 - s.2))
    if 0 < radius then buf ++ [.circleOutline s radius col t] else buf
  else if mode = "square" then
    let p1 : Int × Int := (max 0 (min s.1 e.1), max 0 (min s.2 e.2))
    let p2 : Int × Int := (min (w - 1) (max s.1 e.1), min (h - 1) (max s.2 e.2))
    if p1.1 < p2.1 ∧ p1.2 < p2.2 then buf ++ [.rectOutline p1 p2 col t] else buf
  else buf

/-- draw (lines 52-100): paint on the slide canvas from normalized
coordinates, append the created annotation, return it. -/
def DrawingCanvas.draw (c : DrawingCanvas) (x_norm y_norm : Int) (mode : String)
    (blackboard : Bool) (now : Int) : DrawingCanvas × Ann :=
  let x := mapCoord x_norm c.slide_width 800
  let y := mapCoord y_norm c.slide_height 600
  let col := getCurrentColor c blackboard
  let base : Ann :=
    { type := some mode, coords := some (x, y), color := some col,
      brush_size := some c.brush_size, target := some "slide", timestamp := some now }
  if mode = "pen" then
    match c.slide_prev with
    | some p =>
        let ann := { base with prev_coords := some p }
        ({ c with canvas := c.canvas ++ [.line p (x, y) col c.brush_size],
                  slide_prev := some (x, y),
                  current_annotations := c.current_annotations ++ [ann] }, ann)
    | none =>
        ({ c with canvas := c.canvas ++ [.discFill (x, y) (max 1 (Int.tdiv c.brush_size 2)) col],
                  slide_prev := some (x, y),
                  current_annotations := c.current_annotations ++ [base] }, base)
  else if mode = "circle" ∨ mode = "square" then
    match c.slide_shape_start with
    | none =>
        let ann := { base with shape_start := some (x, y) }
        ({ c with slide_shape_start := some (x, y),
                  current_annotations := c.current_annotations ++ [ann] }, ann)
    | some s =>
        let ann := { base with shape_start := some s, shape_end := some (x, y) }
        ({ c with preview_canvas := draw_shape [] s (x, y) mode col c.brush_size
                    c.slide_width c.slide_height,
                  current_annotations := c.current_annotations ++ [ann] }, ann)
  else
    ({ c with current_annotations := c.current_annotations ++ [base] }, base)

/-- draw_on_webcam (lines 102-143): same logic against the webcam canvas,
webcam dimensions and the webcam pen/shape state. -/
def DrawingCanvas.draw_on_webcam (c : DrawingCanvas) (x_norm y_norm : Int) (mode : String)
    (blackboard : Bool) (now : Int) : DrawingCanvas × Ann :=
  let x := mapCoord x_norm c.webcam_width 800
  let y := mapCoord y_norm c.webcam_height 600
  let col := getCurrentColor c blackboard
  let base : Ann :=
    { type := some mode, coords := some (x, y), color := some col,
      brush_size := some c.brush_size, target := some "webcam", timestamp := some now }
  if mode = "pen" then
    match c.webcam_prev with
    | some p =>
        let ann := { base with prev_coords := some p }
        ({ c with webcam_canvas := c.webcam_canvas ++ [.line p (x, y) col c.brush_size],
                  webcam_prev := some (x, y),
                  current_annotations := c.current_annotations ++ [ann] }, ann)
    | none =>
        ({ c with webcam_canvas :=
                    c.webcam_canvas ++ [.discFill (x, y) (max 1 (Int.tdiv c.brush_size 2)) col],
                  webcam_prev := some (x, y),
                  current_annotations := c.current_annotations ++ [base] }, base)
  else if mode = "circle" ∨ mode = "square" then
    match c.webcam_shape_start with
    | none =>
        let ann := { base with shape_start := some (x, y) }
        ({ c with webcam_shape_start := some (x, y),
                  current_annotations := c.current_annotations ++ [ann] }, ann)
    | some s =>
        let ann := { base with shape_start := some s, shape_end := some (x, y) }
        ({ c with webcam_preview_canvas := draw_shape [] s (x, y) mode col c.brush_size
                    c.webcam_width c.webcam_height,
                  current_annotations := c.current_annotations ++ [ann] }, ann)
  else
    ({ c with current_annotations := c.current_annotations ++ [base] }, base)

/-- erase (lines 187-209): erase discs on both canvases, record slide
coordinates only, target 'both', radius max(5, 2*brush_size). -/
def DrawingCanvas.erase (c : DrawingCanvas) (x_norm y_norm : Int) (now : Int) : DrawingCanvas :=
  let eradius := max 5 (c.brush_size * 2)
  let xs := mapCoord x_norm c.slide_width 800
  let ys := mapCoord y_norm c.slide_height 600
  let xw := mapCoord x_norm c.webcam_width 800
  let yw := mapCoord y_norm c.webcam_height 600
  let ann : Ann :=
    { type := some "erase", coords := some (xs, ys), brush_size := some eradius,
      target := some "both", timestamp := some now }
  { c with canvas := c.canvas ++ [.discFill (xs, ys) eradius (0, 0, 0)],
           webcam_canvas := c.webcam_canvas ++ [.discFill (xw, yw) eradius (0, 0, 0)],
           current_annotations := c.current_annotations ++ [ann] }

/-- The backward scan of reset_points (lines 223-241 and 289-301), run on
the reversed in-session list (head = most recent record): value of
last_shape_end at loop end.  A record matching (shape_start, target,
type) yields its shape_end field; the first match decides, because the
Python loop keeps only the first end found and breaks at a match without
shape_end. -/
def findEndRev (s : Int × Int) (tgt mode : String) : List Ann → Option (Int × Int)
  | [] => none
  | a :: rest =>
      if a.shape_start = some s ∧ a.target = some tgt ∧ a.type = some mode then
        a.shape_end
      else findEndRev s tgt mode rest

/-- The deletions of reset_points (indices_to_remove, lines 263-281), on
the reversed list: every matching record up to and including the first
match without shape_end is removed, records beyond the break point stay. -/
def removeRev (s : Int × Int) (tgt mode : String) : List Ann → List Ann
  | [] => []
  | a :: rest =>
      if a.shape_start = some s ∧ a.target = some tgt ∧ a.type = some mode then
        match a.shape_end with
        | some _ => removeRev s tgt mode rest
        | none => rest
      else a :: removeRev s tgt mode rest

/-- One finalize block of reset_points (slide: lines 217-282, webcam:
285-334): find the candidate end, and either paint the final shape on the
main buffer, delete the temporaries and append the consolidated record,
or just delete the incomplete anchor fragment. -/
def finalizeSide (log : List Ann) (buf : List PaintOp) (s : Int × Int) (tgt mode : String)
    (col : Color) (brush w h now : Int) : List Ann × List PaintOp :=
  match findEndRev s tgt mode log.reverse with
  | some e =>
      ((removeRev s tgt mode log.reverse).reverse ++
         [{ type := some mode, shape_start := some s, shape_end := some e,
            color := some col, brush_size := some brush, target := some tgt,
            timestamp := some now }],
       draw_shape buf s e mode col brush w h)
  | none => ((removeRev s tgt mode log.reverse).reverse, buf)

/-- reset_points (lines 211-346): finalize slide shape, then webcam shape,
then reset pen points, shape anchors and both preview buffers. -/
def DrawingCanvas.reset_points (c : DrawingCanvas) (mode : String) (blackboard : Bool)
    (now : Int) : DrawingCanvas :=
  let col := getCurrentColor c blackboard
  let sres :=
    if mode = "circle" ∨ mode = "square" then
      match c.slide_shape_start with
      | some s => finalizeSide c.current_annotations c.canvas s "slide" mode col
          c.brush_size c.slide_width c.slide_height now
      | none => (c.current_annotations, c.canvas)
    else (c.current_annotations, c.canvas)
  let wres :=
    if mode = "circle" ∨ mode = "square" then
      match c.webcam_shape_start with
      | some s => finalizeSide sres.1 c.webcam_canvas s "webcam" mode col
          c.brush_size c.webcam_width c.webcam_height now
      | none => (sres.1, c.webcam_canvas)
    else (sres.1, c.webcam_canvas)
  { c with current_annotations := wres.1, canvas := sres.2, webcam_canvas := wres.2,
           slide_prev := none, webcam_prev := none,
           slide_shape_start := none, webcam_shape_start := none,
           preview_canvas := [], webcam_preview_canvas := [] }

/-- The record appended by clear_canvas (lines 362-366). -/
def clearAnnRecord (now : Int) : Ann :=
  { type := some "clear_canvas", target := some "both", timestamp := some now }

/-- clear_canvas (lines 354-371): fill all four buffers with background
and append a clear_canvas marker; the code explicitly does NOT clear
current_annotations (comment at line 371). -/
def DrawingCanvas.clear_canvas (c : DrawingCanvas) (now : Int) : DrawingCanvas :=
  { c with canvas := [], webcam_canvas := [], preview_canvas := [], webcam_preview_canvas := [],
           current_annotations := c.current_annotations ++ [clearAnnRecord now] }

/-- True for a persisted entry that is a dict of type 'clear_canvas'
(load_annotations line 412). -/
def isClearRec : DbRecord → Bool
  | .malformed => false
  | .good a => a.type = some "clear_canvas"

/-- The forward scan of load_annotations (lines 409-413) computing
last_clear_index, starting value -1; i is the running index. -/
def lastClearIdxAux : List DbRecord → Int → Int → Int
  | [], _, acc => acc
  | r :: rest, i, acc => lastClearIdxAux rest (i + 1) (if isClearRec r then i else acc)

/-- last_clear_index of load_annotations. -/
def lastClearIndex (l : List DbRecord) : Int := lastClearIdxAux l 0 (-1)

/-- annotations_to_render = annotations[last_clear_index + 1:] (line 416). -/
def annotations_to_render (l : List DbRecord) : List DbRecord :=
  l.drop (lastClearIndex l + 1).toNat

/-- One iteration of the render loop of load_annotations (lines 425-523),
acting on the pair (slide buffer, webcam buffer).  Reads the surface
dimensions and the canvas's current brush_size (used as default erase
radius at line 497); skips malformed entries and entries with missing
required fields; the erase branch paints both canvases unconditionally,
rescaling only the webcam centre (lines 500-507). -/
def renderStep (sw sh ww wh cbrush : Int) (bufs : List PaintOp × List PaintOp)
    (r : DbRecord) : List PaintOp × List PaintOp :=
  match r with
  | .malformed => bufs
  | .good a =>
      let col := a.color.getD (0, 0, 255)
      let brush := max 1 (a.brush_size.getD 5)
      let tgt := a.target.getD "slide"
      let dos := tgt = "slide" ∨ tgt = "both"
      let dow := tgt = "webcam" ∨ tgt = "both"
      if a.type = some "pen" then
        match a.coords with
        | none => bufs
        | some xy =>
            match a.prev_coords with
            | some p =>
                (if dos then bufs.1 ++ [.line p xy col brush] else bufs.1,
                 if dow then bufs.2 ++ [.line p xy col brush] else bufs.2)
            | none =>
                let r0 := max 1 (Int.tdiv brush 2)
                (if dos then bufs.1 ++ [.discFill xy r0 col] else bufs.1,
                 if dow then bufs.2 ++ [.discFill xy r0 col] else bufs.2)
      else if a.type = some "circle" ∨ a.type = some "square" then
        match a.shape_start, a.shape_end with
        | some s, some e =>
            let mode := a.type.getD ""
            (if dos then draw_shape bufs.1 s e mode col brush sw sh else bufs.1,
             if dow then draw_shape bufs.2 s e mode col brush ww wh else bufs.2)
        | _, _ => bufs
      else if a.type = some "erase" then
        match a.coords with
        | none => bufs
        | some xy =>
            let eradius := max 1 (a.brush_size.getD (max 5 (cbrush * 2)))
            let wc : Int × Int := (Int.tdiv (xy.1 * ww) sw, Int.tdiv (xy.2 * wh) sh)
            (bufs.1 ++ [.discFill xy eradius (0, 0, 0)],
             bufs.2 ++ [.discFill wc eradius (0, 0, 0)])
      else bufs

/-- The render loop step lifted to the whole canvas state: only the slide
and webcam main buffers are written (the loop body of lines 425-523
touches no other field). -/
def renderAnn (c : DrawingCanvas) (r : DbRecord) : DrawingCanvas :=
  { c with
    canvas := (renderStep c.slide_width c.slide_height c.webcam_width c.webcam_height
      c.brush_size (c.canvas, c.webcam_canvas) r).1,
    webcam_canvas := (renderStep c.slide_width c.slide_height c.webcam_width c.webcam_height
      c.brush_size (c.canvas, c.webcam_canvas) r).2 }

/-- load_annotations (lines 397-525): clear all four buffers and the
in-session list, keep only the records after the last clear_canvas
marker, render them in order. -/
def DrawingCanvas.load_annotations (c : DrawingCanvas) (anns : List DbRecord) : DrawingCanvas :=
  List.foldl renderAnn
    { c with canvas := [], webcam_canvas := [], preview_canvas := [],
             webcam_preview_canvas := [], current_annotations := [] }
    (annotations_to_render anns)

/-- The per-sample save path of main.py handle_gestures (lines 221-241):
the last annotation is saved; on failure only an error is logged, the
in-session list is left untouched (and it is not cleared on success
either). -/
def drawFlushStep (log : List Ann) (saveOk : Bool) : List Ann := log

/-- The erase save path of main.py handle_gestures (lines 300-322): if the
list is non-empty and its last record is an erase, the record is saved and
then popped from the list whether or not the save succeeded (pop at line
316 is outside the success branch). -/
def eraseFlushStep (log : List Ann) (saveOk : Bool) : List Ann :=
  match log.getLast? with
  | some lastAnn => if lastAnn.type = some "erase" then log.dropLast else log
  | none => log

/-- The finalize save path of main.py handle_gestures (lines 246-277),
valid-session case: every record of the list is saved (individual results
only logged) and then the whole list is cleared regardless of the
results; saveOk abstracts the reported results. -/
def finalFlushStep (log : List Ann) (saveOk : Bool) : List Ann :=
  if log = [] then log else []

/-- The render loop only writes the slide and webcam main buffers, and its
effect factors through renderStep applied to the parameters it reads. -/
theorem renderAll_eq (l : List DbRecord) (c : DrawingCanvas) :
    List.foldl renderAnn c l =
      { c with
        canvas := (List.foldl (renderStep c.slide_width c.slide_height c.webcam_width
          c.webcam_height c.brush_size) (c.canvas, c.webcam_canvas) l).1,
        webcam_canvas := (List.foldl (renderStep c.slide_width c.slide_height c.webcam_width
          c.webcam_height c.brush_size) (c.canvas, c.webcam_canvas) l).2 } := by
  induction l generalizing c with
  | nil => rfl
  | cons a t ih =>
      rw [List.foldl_cons, List.foldl_cons, ih]
      rfl

/-- Claim C1: replay determinism.  The pixel buffers produced by
load_annotations depend only on the surface dimensions, the canvas's
current brush size (read as the default erase radius at line 497) and the
record sequence; in particular running load_annotations twice on freshly
reset canvases of the same dimensions (which also share brush_size = 5)
produces byte-identical slide and webcam buffers. -/
theorem replay_deterministic (c₁ c₂ : DrawingCanvas) (records : List DbRecord)
    (h1 : c₁.slide_width = c₂.slide_width) (h2 : c₁.slide_height = c₂.slide_height)
    (h3 : c₁.webcam_width = c₂.webcam_width) (h4 : c₁.webcam_height = c₂.webcam_height)
    (h5 : c₁.brush_size = c₂.brush_size) :
    (c₁.load_annotations records).canvas = (c₂.load_annotations records).canvas ∧
    (c₁.load_annotations records).webcam_canvas = (c₂.load_annotations records).webcam_canvas ∧
    (c₁.load_annotations records).preview_canvas = (c₂.load_annotations records).preview_canvas ∧
    (c₁.load_annotations records).webcam_preview_canvas
      = (c₂.load_annotations records).webcam_preview_canvas := by
  unfold DrawingCanvas.load_annotations
  rw [renderAll_eq, renderAll_eq]
  refine ⟨?_, ?_, ?_, ?_⟩ <;> simp only [h1, h2, h3, h4, h5]

/-- The last-clear-index scan over a concatenation factors through its
pieces. -/
theorem lastClearIdxAux_append (l₁ l₂ : List DbRecord) :
    ∀ i acc, lastClearIdxAux (l₁ ++ l₂) i acc
      = lastClearIdxAux l₂ (i + l₁.length) (lastClearIdxAux l₁ i acc) := by
  induction l₁ with
  | nil => intro i acc; simp [lastClearIdxAux]
  | cons r t ih =>
      intro i acc
      rw [List.cons_append, lastClearIdxAux, lastClearIdxAux, ih]
      have : i + 1 + (t.length : Int) = i + ((t.length : Int) + 1) := by ring
      simp [this]

/-- A scan over a stretch with no clear_canvas entry keeps its accumulator. -/
theorem lastClearIdxAux_no_clear (l : List DbRecord) (h : ∀ r ∈ l, isClearRec r = false) :
    ∀ i acc, lastClearIdxAux l i acc = acc := by
  induction l with
  | nil => intro i acc; rfl
  | cons r t ih =>
      intro i acc
      rw [lastClearIdxAux, h r (List.mem_cons_self r t), if_neg (by simp)]
      exact ih (fun x hx => h x (List.mem_cons_of_mem r hx)) (i + 1) acc

/-- With a clear_canvas record followed by a clear-free suffix, the render
list of load_annotations is exactly that suffix. -/
theorem render_after_last_clear (pre post : List DbRecord) (a : DbRecord)
    (ha : isClearRec a = true) (hpost : ∀ r ∈ post, isClearRec r = false) :
    annotations_to_render (pre ++ a :: post) = post := by
  unfold annotations_to_render lastClearIndex
  have hsplit : pre ++ a :: post = (pre ++ [a]) ++ post := by simp
  rw [hsplit, lastClearIdxAux_append, lastClearIdxAux_append,
      lastClearIdxAux_no_clear post hpost]
  rw [show lastClearIdxAux [a] (0 + (pre.length : Int)) (lastClearIdxAux pre 0 (-1))
        = (pre.length : Int) from by rw [lastClearIdxAux, if_pos ha]; simp [lastClearIdxAux]]
  rw [show ((pre.length : Int) + 1).toNat = (pre ++ [a]).length from by
        simp]
  exact List.drop_left (pre ++ [a]) post

/-- Without any clear_canvas record the whole sequence is rendered. -/
theorem render_no_clear (l : List DbRecord) (h : ∀ r ∈ l, isClearRec r = false) :
    annotations_to_render l = l := by
  unfold annotations_to_render lastClearIndex
  rw [lastClearIdxAux_no_clear l h]
  rfl

/-- Claim C2: clear truncation.  For any sequence pre ++ clear :: post
whose suffix post is clear-free (that is, the clear record shown is the
last one), nothing at or before the last clear_canvas is rendered, and
replay produces the same slide and webcam buffers as replaying post
alone.  The instance replay [a, b, ClearCanvas, c, d] = replay [c, d] is
the witness below. -/
theorem clear_truncation (c : DrawingCanvas) (pre post : List DbRecord) (a : DbRecord)
    (ha : isClearRec a = true) (hpost : ∀ r ∈ post, isClearRec r = false) :
    annotations_to_render (pre ++ a :: post) = post ∧
    (c.load_annotations (pre ++ a :: post)).canvas = (c.load_annotations post).canvas ∧
    (c.load_annotations (pre ++ a :: post)).webcam_canvas
      = (c.load_annotations post).webcam_canvas := by
  have h1 := render_after_last_clear pre post a ha hpost
  have h2 := render_no_clear post hpost
  refine ⟨h1, ?_, ?_⟩ <;> unfold DrawingCanvas.load_annotations <;> rw [h1, h2]

/-- Claim C3: shape finalize consolidation.  Starting from a canvas with
no pending anchors and an empty in-session log, drawing in a shape mode
once (anchor), twice more (drags) and then releasing via reset_points
with the same mode leaves exactly one record in the in-session log: the
finalized shape whose shape_end is the mapped last drag sample; every
preview/anchor record sharing its (shape_start, target, type) was
removed. -/
theorem shape_finalize_consolidation
    (c : DrawingCanvas) (mode : String) (bb : Bool)
    (p0x p0y p1x p1y p2x p2y t0 t1 t2 t3 : Int)
    (hmode : mode = "circle" ∨ mode = "square")
    (hanch : c.slide_shape_start = none)
    (hwanch : c.webcam_shape_start = none)
    (hlog : c.current_annotations = []) :
    ((((c.draw p0x p0y mode bb t0).1.draw p1x p1y mode bb t1).1.draw
        p2x p2y mode bb t2).1.reset_points mode bb t3).current_annotations
      = [{ type := some mode,
           shape_start := some (mapCoord p0x c.slide_width 800, mapCoord p0y c.slide_height 600),
           shape_end := some (mapCoord p2x c.slide_width 800, mapCoord p2y c.slide_height 600),
           color := some (getCurrentColor c bb),
           brush_size := some c.brush_size,
           target := some "slide", timestamp := some t3 }] := by
  rcases hmode with h | h <;> subst h <;>
    simp [DrawingCanvas.draw, DrawingCanvas.reset_points, finalizeSide, findEndRev,
      removeRev, getCurrentColor, hanch, hwanch, hlog, List.reverse_cons]

/-- Claim C8: abandoned shape discard.  Anchoring a shape and releasing
without any drag leaves zero records in the in-session log and both main
pixel buffers unchanged. -/
theorem abandoned_shape_discard
    (c : DrawingCanvas) (mode : String) (bb : Bool) (px py t0 t1 : Int)
    (hmode : mode = "circle" ∨ mode = "square")
    (hanch : c.slide_shape_start = none)
    (hwanch : c.webcam_shape_start = none)
    (hlog : c.current_annotations = []) :
    ((c.draw px py mode bb t0).1.reset_points mode bb t1).current_annotations = [] ∧
    ((c.draw px py mode bb t0).1.reset_points mode bb t1).canvas = c.canvas ∧
    ((c.draw px py mode bb t0).1.reset_points mode bb t1).webcam_canvas = c.webcam_canvas := by
  rcases hmode with h | h <;> subst h <;>
    simp [DrawingCanvas.draw, DrawingCanvas.reset_points, finalizeSide, findEndRev,
      removeRev, getCurrentColor, hanch, hwanch, hlog]

/-- Claim C9: degenerate geometry is a silent no-op.  A circle whose
anchor equals its end (radius 0) leaves the target buffer unchanged, and
a rectangle whose clipped width or height is not positive leaves the
target buffer unchanged; draw_shape is a total function, so no paint
operation can raise on degenerate geometry. -/
theorem degenerate_geometry_noop (buf : List PaintOp) (s e : Int × Int) (col : Color)
    (t w h : Int) :
    draw_shape buf s s "circle" col t w h = buf ∧
    (min (w - 1) (max s.1 e.1) ≤ max 0 (min s.1 e.1) ∨
       min (h - 1) (max s.2 e.2) ≤ max 0 (min s.2 e.2) →
      draw_shape buf s e "square" col t w h = buf) := by
  constructor
  · simp [draw_shape, intSqrt]
  · intro hdeg
    unfold draw_shape
    rw [if_neg (by decide : ¬ ("square" : String) = "circle"),
        if_pos (rfl : ("square" : String) = "square")]
    exact if_neg (by rintro ⟨h1, h2⟩; rcases hdeg with hd | hd <;> omega)

/-- Claim C10 (implicit): during replay a pen or shape record whose target
is 'both' is painted with the same stored pixel coordinates on the slide
and the webcam buffer, with no rescaling between the two resolutions:
pen line segments (prev_coords present), pen stroke-start discs
(prev_coords absent) and both shape kinds receive identical coordinates
on both buffers (shapes are merely clipped against each buffer's own
dimensions inside draw_shape); and every pen or shape record with a
missing target field is rendered on the slide buffer only. -/
theorem replay_both_target_no_rescale
    (sw sh ww wh cb : Int) (bufs : List PaintOp × List PaintOp)
    (xy p s e : Int × Int) (col : Color) (bs : Int) :
    (renderStep sw sh ww wh cb bufs
        (.good { type := some "pen", coords := some xy, prev_coords := some p,
                 color := some col, brush_size := some bs, target := some "both" })
      = (bufs.1 ++ [.line p xy col (max 1 bs)], bufs.2 ++ [.line p xy col (max 1 bs)])) ∧
    (renderStep sw sh ww wh cb bufs
        (.good { type := some "pen", coords := some xy,
                 color := some col, brush_size := some bs, target := some "both" })
      = (bufs.1 ++ [.discFill xy (max 1 (Int.tdiv (max 1 bs) 2)) col],
         bufs.2 ++ [.discFill xy (max 1 (Int.tdiv (max 1 bs) 2)) col])) ∧
    (renderStep sw sh ww wh cb bufs
        (.good { type := some "circle", shape_start := some s, shape_end := some e,
                 color := some col, brush_size := some bs, target := some "both" })
      = (draw_shape bufs.1 s e "circle" col (max 1 bs) sw sh,
         draw_shape bufs.2 s e "circle" col (max 1 bs) ww wh)) ∧
    (renderStep sw sh ww wh cb bufs
        (.good { type := some "square", shape_start := some s, shape_end := some e,
                 color := some col, brush_size := some bs, target := some "both" })
      = (draw_shape bufs.1 s e "square" col (max 1 bs) sw sh,
         draw_shape bufs.2 s e "square" col (max 1 bs) ww wh)) ∧
    (renderStep sw sh ww wh cb bufs
        (.good { type := some "pen", coords := some xy, prev_coords := some p,
                 color := some col, brush_size := some bs, target := none })
      = (bufs.1 ++ [.line p xy col (max 1 bs)], bufs.2)) ∧
    (renderStep sw sh ww wh cb bufs
        (.good { type := some "pen", coords := some xy,
                 color := some col, brush_size := some bs, target := none })
      = (bufs.1 ++ [.discFill xy (max 1 (Int.tdiv (max 1 bs) 2)) col], bufs.2)) ∧
    (renderStep sw sh ww wh cb bufs
        (.good { type := some "circle", shape_start := some s, shape_end := some e,
                 color := some col, brush_size := some bs, target := none })
      = (draw_shape bufs.1 s e "circle" col (max 1 bs) sw sh, bufs.2)) ∧
    (renderStep sw sh ww wh cb bufs
        (.good { type := some "square", shape_start := some s, shape_end := some e,
                 color := some col, brush_size := some bs, target := none })
      = (draw_shape bufs.1 s e "square" col (max 1 bs) sw sh, bufs.2)) := by
  refine ⟨?_, ?_, ?_, ?_, ?_, ?_, ?_, ?_⟩ <;> simp [renderStep]

/-- Claim C5, amended: clear_canvas resets all four pixel buffers (main
and preview, slide and webcam) to background and appends a ClearCanvas
marker to the in-session log; the records previously held in the log are
NOT cleared - they remain, and history truncation happens only at replay
through the marker (drawing_utils.py line 371 explicitly keeps the
list). -/
theorem clear_canvas_postcondition_amended (c : DrawingCanvas) (now : Int) :
    (c.clear_canvas now).canvas = [] ∧
    (c.clear_canvas now).webcam_canvas = [] ∧
    (c.clear_canvas now).preview_canvas = [] ∧
    (c.clear_canvas now).webcam_preview_canvas = [] ∧
    (c.clear_canvas now).current_annotations = c.current_annotations ++ [clearAnnRecord now] :=
  ⟨rfl, rfl, rfl, rfl, rfl⟩

/-- Claim C5 counterexample: a record held in the in-session log before
clear_canvas is still in the log afterwards, refuting the claim that the
explicit ClearCanvas clears the in-session records. -/
theorem clear_canvas_retains_log_cex :
    ({ type := some "pen", coords := some ((3 : Int), 4), color := some (0, 0, 255),
       brush_size := some 5, target := some "slide", timestamp := some 0 } : Ann) ∈
      (({ DrawingCanvas.init 1920 1080 1280 720 with
          current_annotations := [{ type := some "pen", coords := some ((3 : Int), 4),
                                    color := some (0, 0, 255), brush_size := some 5,
                                    target := some "slide",
                                    timestamp := some 0 }] } : DrawingCanvas).clear_canvas
        1).current_annotations := by
  decide

/-- Claim C4, amended: only the per-sample draw save path leaves a record
whose save failed in the in-session log; the erase save path pops the
record after the save attempt regardless of the reported result
(main.py line 316), and the shape-finalize save path clears the whole
list after the attempts regardless of the results (main.py line 270), so
a failed flush does drop those records. -/
theorem persistence_flush_retention_amended
    (l fl : List Ann) (a : Ann) (ok1 ok2 ok3 : Bool)
    (ha : a.type = some "erase") (hfl : fl ≠ []) :
    drawFlushStep l ok1 = l ∧ eraseFlushStep (l ++ [a]) ok2 = l ∧ finalFlushStep fl ok3 = [] := by
  refine ⟨rfl, ?_, ?_⟩
  · simp [eraseFlushStep, List.getLast?_concat, ha, List.dropLast_concat]
  · unfold finalFlushStep
    rw [if_neg hfl]

/-- Claim C4 counterexample: an erase record produced by the erase
operation is removed from the in-session log by the erase save path even
when the save reports failure, refuting retention-for-retry. -/
theorem persistence_failure_drop_cex :
    eraseFlushStep ((DrawingCanvas.init 1920 1080 1280 720).erase 400 300 0).current_annotations
      false = [] ∧
    ((DrawingCanvas.init 1920 1080 1280 720).erase 400 300 0).current_annotations ≠ [] := by
  constructor <;> decide

/-- Claim C6: erase scaling on replay.  Replaying an erase record with
coords (960, 540) and radius 20 on fresh 1920x1080 / 1280x720 surfaces
paints an erase disc at (960, 540) radius 20 on the slide buffer and an
erase disc at (640, 360) = (960*1280/1920, 540*720/1080) radius 20 on
the webcam buffer. -/
theorem erase_scaling_on_replay :
    ((DrawingCanvas.init 1920 1080 1280 720).load_annotations
      [.good { type := some "erase", coords := some (960, 540), brush_size := some 20,
               target := some "both" }]).canvas
      = [.discFill (960, 540) 20 (0, 0, 0)] ∧
    ((DrawingCanvas.init 1920 1080 1280 720).load_annotations
      [.good { type := some "erase", coords := some (960, 540), brush_size := some 20,
               target := some "both" }]).webcam_canvas
      = [.discFill (640, 360) 20 (0, 0, 0)] := by
  constructor <;> decide

/-- Claim C7, amended: the point stored by draw / draw_on_webcam for a
normalized input (x, y) is (clamp(trunc(x*W/800), 0, W-1),
clamp(trunc(y*H/600), 0, H-1)) where trunc is truncation toward zero
(Python int()), NOT round-to-nearest as the claim stated; the in-range
part of the claim holds: the mapped point always lies within
[0, W-1] x [0, H-1] for any input, and the mapping is a pure function of
its inputs. -/
theorem coordinate_mapping_amended
    (c : DrawingCanvas) (x y : Int) (mode : String) (bb : Bool) (now : Int)
    (hw : 0 < c.slide_width) (hh : 0 < c.slide_height)
    (hww : 0 < c.webcam_width) (hwh : 0 < c.webcam_height) :
    (c.draw x y mode bb now).2.coords
      = some (mapCoord x c.slide_width 800, mapCoord y c.slide_height 600) ∧
    (c.draw_on_webcam x y mode bb now).2.coords
      = some (mapCoord x c.webcam_width 800, mapCoord y c.webcam_height 600) ∧
    (0 ≤ mapCoord x c.slide_width 800 ∧ mapCoord x c.slide_width 800 ≤ c.slide_width - 1) ∧
    (0 ≤ mapCoord y c.slide_height 600 ∧ mapCoord y c.slide_height 600 ≤ c.slide_height - 1) ∧
    (0 ≤ mapCoord x c.webcam_width 800 ∧ mapCoord x c.webcam_width 800 ≤ c.webcam_width - 1) ∧
    (0 ≤ mapCoord y c.webcam_height 600 ∧
       mapCoord y c.webcam_height 600 ≤ c.webcam_height - 1) := by
  refine ⟨?_, ?_, ?_, ?_, ?_, ?_⟩
  · unfold DrawingCanvas.draw
    split
    · split <;> rfl
    · split
      · split <;> rfl
      · rfl
  · unfold DrawingCanvas.draw_on_webcam
    split
    · split <;> rfl
    · split
      · split <;> rfl
      · rfl
  all_goals
    unfold mapCoord
    constructor <;> [skip; skip] <;> omega

/-- Claim C7 counterexample: at y_norm = 1 with H = 1080 the code stores
trunc(1.8) = 1 while the claim's formula clamp(round(1.8)) gives 2. -/
theorem coordinate_mapping_round_cex :
    mapCoord 1 1080 600 = 1 ∧ mapCoordSpecRound 1 1080 600 = 2 := by
  constructor <;> decide

/-- Witness for C1 at concrete inputs: two canvases of the same dimensions
and brush size (one fresh, one with unrelated state differing). -/
theorem replay_deterministic_witness :
    (DrawingCanvas.init 1920 1080 1280 720).slide_width
      = ({ DrawingCanvas.init 1920 1080 1280 720 with
           slide_prev := some (1, 2) } : DrawingCanvas).slide_width ∧
    (DrawingCanvas.init 1920 1080 1280 720).slide_height
      = ({ DrawingCanvas.init 1920 1080 1280 720 with
           slide_prev := some (1, 2) } : DrawingCanvas).slide_height ∧
    (DrawingCanvas.init 1920 1080 1280 720).webcam_width
      = ({ DrawingCanvas.init 1920 1080 1280 720 with
           slide_prev := some (1, 2) } : DrawingCanvas).webcam_width ∧
    (DrawingCanvas.init 1920 1080 1280 720).webcam_height
      = ({ DrawingCanvas.init 1920 1080 1280 720 with
           slide_prev := some (1, 2) } : DrawingCanvas).webcam_height ∧
    (DrawingCanvas.init 1920 1080 1280 720).brush_size
      = ({ DrawingCanvas.init 1920 1080 1280 720 with
           slide_prev := some (1, 2) } : DrawingCanvas).brush_size ∧
    (((DrawingCanvas.init 1920 1080 1280 720).load_annotations
        [.good { type := some "pen", coords := some (10, 10), prev_coords := some (5, 5),
                 color := some (0, 0, 255), brush_size := some 5,
                 target := some "both" }]).canvas
      = (({ DrawingCanvas.init 1920 1080 1280 720 with
            slide_prev := some (1, 2) } : DrawingCanvas).load_annotations
        [.good { type := some "pen", coords := some (10, 10), prev_coords := some (5, 5),
                 color := some (0, 0, 255), brush_size := some 5,
                 target := some "both" }]).canvas ∧
     ((DrawingCanvas.init 1920 1080 1280 720).load_annotations
        [.good { type := some "pen", coords := some (10, 10), prev_coords := some (5, 5),
                 color := some (0, 0, 255), brush_size := some 5,
                 target := some "both" }]).webcam_canvas
      = (({ DrawingCanvas.init 1920 1080 1280 720 with
            slide_prev := some (1, 2) } : DrawingCanvas).load_annotations
        [.good { type := some "pen", coords := some (10, 10), prev_coords := some (5, 5),
                 color := some (0, 0, 255), brush_size := some 5,
                 target := some "both" }]).webcam_canvas ∧
     ((DrawingCanvas.init 1920 1080 1280 720).load_annotations
        [.good { type := some "pen", coords := some (10, 10), prev_coords := some (5, 5),
                 color := some (0, 0, 255), brush_size := some 5,
                 target := some "both" }]).preview_canvas
      = (({ DrawingCanvas.init 1920 1080 1280 720 with
            slide_prev := some (1, 2) } : DrawingCanvas).load_annotations
        [.good { type := some "pen", coords := some (10, 10), prev_coords := some (5, 5),
                 color := some (0, 0, 255), brush_size := some 5,
                 target := some "both" }]).preview_canvas ∧
     ((DrawingCanvas.init 1920 1080 1280 720).load_annotations
        [.good { type := some "pen", coords := some (10, 10), prev_coords := some (5, 5),
                 color := some (0, 0, 255), brush_size := some 5,
                 target := some "both" }]).webcam_preview_canvas
      = (({ DrawingCanvas.init 1920 1080 1280 720 with
            slide_prev := some (1, 2) } : DrawingCanvas).load_annotations
        [.good { type := some "pen", coords := some (10, 10), prev_coords := some (5, 5),
                 color := some (0, 0, 255), brush_size := some 5,
                 target := some "both" }]).webcam_preview_canvas) :=
  ⟨rfl, rfl, rfl, rfl, rfl, replay_deterministic _ _ _ rfl rfl rfl rfl rfl⟩

/-- Witness for C2: replay [a, b, ClearCanvas, c, d] equals replay [c, d]. -/
theorem clear_truncation_witness :
    isClearRec (.good (clearAnnRecord 5)) = true ∧
    (∀ r ∈ ([.good { type := some "pen", coords := some (3, 3) },
             .good { type := some "circle", shape_start := some (10, 10),
                     shape_end := some (50, 50) }] : List DbRecord),
       isClearRec r = false) ∧
    (annotations_to_render
        ([.good { type := some "pen", coords := some (1, 1) },
          .good { type := some "pen", coords := some (2, 2), prev_coords := some (1, 1) }] ++
          .good (clearAnnRecord 5) ::
            [.good { type := some "pen", coords := some (3, 3) },
             .good { type := some "circle", shape_start := some (10, 10),
                     shape_end := some (50, 50) }])
      = [.good { type := some "pen", coords := some (3, 3) },
         .good { type := some "circle", shape_start := some (10, 10),
                 shape_end := some (50, 50) }] ∧
     ((DrawingCanvas.init 1920 1080 1280 720).load_annotations
        ([.good { type := some "pen", coords := some (1, 1) },
          .good { type := some "pen", coords := some (2, 2), prev_coords := some (1, 1) }] ++
          .good (clearAnnRecord 5) ::
            [.good { type := some "pen", coords := some (3, 3) },
             .good { type := some "circle", shape_start := some (10, 10),
                     shape_end := some (50, 50) }])).canvas
      = ((DrawingCanvas.init 1920 1080 1280 720).load_annotations
          [.good { type := some "pen", coords := some (3, 3) },
           .good { type := some "circle", shape_start := some (10, 10),
                   shape_end := some (50, 50) }]).canvas ∧
     ((DrawingCanvas.init 1920 1080 1280 720).load_annotations
        ([.good { type := some "pen", coords := some (1, 1) },
          .good { type := some "pen", coords := some (2, 2), prev_coords := some (1, 1) }] ++
          .good (clearAnnRecord 5) ::
            [.good { type := some "pen", coords := some (3, 3) },
             .good { type := some "circle", shape_start := some (10, 10),
                     shape_end := some (50, 50) }])).webcam_canvas
      = ((DrawingCanvas.init 1920 1080 1280 720).load_annotations
          [.good { type := some "pen", coords := some (3, 3) },
           .good { type := some "circle", shape_start := some (10, 10),
                   shape_end := some (50, 50) }]).webcam_canvas) :=
  ⟨by decide, by decide, clear_truncation _ _ _ _ (by decide) (by decide)⟩

/-- Witness for C3 on a fresh canvas: circle anchored at (100,100),
dragged to (120,110) then (150,130), released. -/
theorem shape_finalize_consolidation_witness :
    ("circle" = "circle" ∨ ("circle" : String) = "square") ∧
    (DrawingCanvas.init 1920 1080 1280 720).slide_shape_start = none ∧
    (DrawingCanvas.init 1920 1080 1280 720).webcam_shape_start = none ∧
    (DrawingCanvas.init 1920 1080 1280 720).current_annotations = [] ∧
    (((((DrawingCanvas.init 1920 1080 1280 720).draw 100 100 "circle" false 0).1.draw
        120 110 "circle" false 1).1.draw 150 130 "circle" false 2).1.reset_points
        "circle" false 3).current_annotations
      = [{ type := some "circle",
           shape_start := some (mapCoord 100 (DrawingCanvas.init 1920 1080 1280 720).slide_width
               800,
             mapCoord 100 (DrawingCanvas.init 1920 1080 1280 720).slide_height 600),
           shape_end := some (mapCoord 150 (DrawingCanvas.init 1920 1080 1280 720).slide_width
               800,
             mapCoord 130 (DrawingCanvas.init 1920 1080 1280 720).slide_height 600),
           color := some (getCurrentColor (DrawingCanvas.init 1920 1080 1280 720) false),
           brush_size := some (DrawingCanvas.init 1920 1080 1280 720).brush_size,
           target := some "slide", timestamp := some 3 }] :=
  ⟨Or.inl rfl, rfl, rfl, rfl,
    shape_finalize_consolidation (DrawingCanvas.init 1920 1080 1280 720) "circle" false
      100 100 120 110 150 130 0 1 2 3 (Or.inl rfl) rfl rfl rfl⟩

/-- Witness for C8 on a fresh canvas: square anchored and released. -/
theorem abandoned_shape_discard_witness :
    ("square" = "circle" ∨ ("square" : String) = "square") ∧
    (DrawingCanvas.init 1920 1080 1280 720).slide_shape_start = none ∧
    (DrawingCanvas.init 1920 1080 1280 720).webcam_shape_start = none ∧
    (DrawingCanvas.init 1920 1080 1280 720).current_annotations = [] ∧
    ((((DrawingCanvas.init 1920 1080 1280 720).draw 100 100 "square" false 0).1.reset_points
        "square" false 1).current_annotations = [] ∧
     (((DrawingCanvas.init 1920 1080 1280 720).draw 100 100 "square" false 0).1.reset_points
        "square" false 1).canvas = (DrawingCanvas.init 1920 1080 1280 720).canvas ∧
     (((DrawingCanvas.init 1920 1080 1280 720).draw 100 100 "square" false 0).1.reset_points
        "square" false 1).webcam_canvas
       = (DrawingCanvas.init 1920 1080 1280 720).webcam_canvas) :=
  ⟨Or.inr rfl, rfl, rfl, rfl,
    abandoned_shape_discard (DrawingCanvas.init 1920 1080 1280 720) "square" false
      100 100 0 1 (Or.inr rfl) rfl rfl rfl⟩

/-- Witness for C4's amended statement at concrete logs and failed saves. -/
theorem persistence_flush_retention_witness :
    ({ type := some "erase", coords := some ((5 : Int), 6), brush_size := some 10,
       target := some "both", timestamp := some 0 } : Ann).type = some "erase" ∧
    ([{ type := some "pen" }] : List Ann) ≠ [] ∧
    (drawFlushStep [] false = [] ∧
     eraseFlushStep ([] ++ [({ type := some "erase", coords := some ((5 : Int), 6),
                               brush_size := some 10, target := some "both",
                               timestamp := some 0 } : Ann)]) false = [] ∧
     finalFlushStep [{ type := some "pen" }] false = []) :=
  ⟨rfl, by decide,
    persistence_flush_retention_amended [] [{ type := some "pen" }]
      { type := some "erase", coords := some ((5 : Int), 6), brush_size := some 10,
        target := some "both", timestamp := some 0 } false false false rfl (by decide)⟩

/-- Witness for C7's amended statement at the spec's example input
(-5, 10000) on a 1920x1080 slide and 1280x720 webcam surface. -/
theorem coordinate_mapping_witness :
    0 < (DrawingCanvas.init 1920 1080 1280 720).slide_width ∧
    0 < (DrawingCanvas.init 1920 1080 1280 720).slide_height ∧
    0 < (DrawingCanvas.init 1920 1080 1280 720).webcam_width ∧
    0 < (DrawingCanvas.init 1920 1080 1280 720).webcam_height ∧
    (((DrawingCanvas.init 1920 1080 1280 720).draw (-5) 10000 "pen" false 0).2.coords
      = some (mapCoord (-5) (DrawingCanvas.init 1920 1080 1280 720).slide_width 800,
          mapCoord 10000 (DrawingCanvas.init 1920 1080 1280 720).slide_height 600) ∧
     ((DrawingCanvas.init 1920 1080 1280 720).draw_on_webcam (-5) 10000 "pen" false 0).2.coords
      = some (mapCoord (-5) (DrawingCanvas.init 1920 1080 1280 720).webcam_width 800,
          mapCoord 10000 (DrawingCanvas.init 1920 1080 1280 720).webcam_height 600) ∧
     (0 ≤ mapCoord (-5) (DrawingCanvas.init 1920 1080 1280 720).slide_width 800 ∧
        mapCoord (-5) (DrawingCanvas.init 1920 1080 1280 720).slide_width 800
          ≤ (DrawingCanvas.init 1920 1080 1280 720).slide_width - 1) ∧
     (0 ≤ mapCoord 10000 (DrawingCanvas.init 1920 1080 1280 720).slide_height 600 ∧
        mapCoord 10000 (DrawingCanvas.init 1920 1080 1280 720).slide_height 600
          ≤ (DrawingCanvas.init 1920 1080 1280 720).slide_height - 1) ∧
     (0 ≤ mapCoord (-5) (DrawingCanvas.init 1920 1080 1280 720).webcam_width 800 ∧
        mapCoord (-5) (DrawingCanvas.init 1920 1080 1280 720).webcam_width 800
          ≤ (DrawingCanvas.init 1920 1080 1280 720).webcam_width - 1) ∧
     (0 ≤ mapCoord 10000 (DrawingCanvas.init 1920 1080 1280 720).webcam_height 600 ∧
        mapCoord 10000 (DrawingCanvas.init 1920 1080 1280 720).webcam_height 600
          ≤ (DrawingCanvas.init 1920 1080 1280 720).webcam_height - 1)) :=
  ⟨by decide, by decide, by decide, by decide,
    coordinate_mapping_amended (DrawingCanvas.init 1920 1080 1280 720) (-5) 10000 "pen" false 0
      (by decide) (by decide) (by decide) (by decide)⟩

/-- Witness for C9: zero-radius circle and zero-width rectangle. -/
theorem degenerate_geometry_witness :
    draw_shape [] (5, 5) (5, 5) "circle" (1, 2, 3) 1 100 100 = [] ∧
    (min ((100 : Int) - 1) (max 5 5) ≤ max 0 (min 5 5) ∨
       min ((100 : Int) - 1) (max 5 9) ≤ max 0 (min 5 9)) ∧
    draw_shape [] (5, 5) (5, 9) "square" (1, 2, 3) 1 100 100 = [] :=
  ⟨(degenerate_geometry_noop [] (5, 5) (5, 9) (1, 2, 3) 1 100 100).1,
   Or.inl (by decide),
   (degenerate_geometry_noop [] (5, 5) (5, 9) (1, 2, 3) 1 100 100).2 (Or.inl (by decide))⟩
